import Mathlib

/-!
Shallow embedding of the Lilka desktop-monitor frame decoder and compositor
(src/src/main.cpp).  Bytes are `Fin 256` (uint8_t); the byte stream handed to a
frame-processing step is the list of all bytes the transport will deliver
before disconnection, so a read of `n` bytes fails exactly when fewer than `n`
bytes remain (mirroring `readExactly`, which blocks until the bytes arrive or
the connection drops).  Allocation is abstracted by two oracles (`ps_malloc`
and the `malloc` fallback), each `Option Nat` carrying the address of a fresh
buffer or `none` on failure.
-/

/-- Wire bytes (uint8_t). -/
abbrev Byte := Fin 256

/-- MAGIC = "PXUP" (main.cpp line 41): bytes 'P' 'X' 'U' 'P'. -/
def MAGIC : List Byte := [80, 88, 85, 80]

/-- MAGIC_RUN = "PXUR" (line 44): bytes 'P' 'X' 'U' 'R'. -/
def MAGIC_RUN : List Byte := [80, 88, 85, 82]

/-- PROTO_VERSION = 0x02 (line 42). -/
def PROTO_VERSION : Byte := 2

/-- RUN_VERSION = 0x01 (line 45). -/
def RUN_VERSION : Byte := 1

/-- Little-endian u16 from two bytes: `lo | (hi << 8)` (lines 219, 290). -/
def le16 (lo hi : Byte) : Nat := lo.val + 256 * hi.val

/-- Little-endian u32 from four bytes (lines 218, 289). -/
def le32 (b0 b1 b2 b3 : Byte) : Nat :=
  b0.val + 256 * b1.val + 65536 * b2.val + 16777216 * b3.val

/-- One decoded update entry, the union-shaped `PixelUpdate` struct
(lines 54-59): `x`, `y`, `len` (runs only), `color`. -/
structure PixelUpdate where
  x : Nat
  y : Nat
  len : Nat
  color : Nat
deriving Repr, DecidableEq

/-- The update-buffer state: the `updateBuffer` pointer (an abstract address,
`none` = nullptr) and `bufferCapacity` (lines 61-62). -/
structure BufState where
  updateBuffer : Option Nat
  bufferCapacity : Nat
deriving Repr, DecidableEq

/-- `ensureUpdateBuffer` (lines 65-83).  `psAlloc` is the result of
`ps_malloc`, `mAlloc` of the `malloc` fallback; each yields the address of a
fresh buffer or `none` on failure.  On success the old buffer is freed and
replaced; on failure the state is returned unchanged. -/
def ensureUpdateBuffer (psAlloc mAlloc : Option Nat) (needed : Nat)
    (s : BufState) : Bool × BufState :=
  if needed ≤ s.bufferCapacity ∧ s.updateBuffer.isSome then
    (true, s)
  else
    match psAlloc with
    | some tmp => (true, ⟨some tmp, needed⟩)
    | none =>
      match mAlloc with
      | some tmp => (true, ⟨some tmp, needed⟩)
      | none => (false, s)

/-- Invariant of every reachable buffer state: a positive capacity implies the
buffer pointer is set.  Holds at startup (`nullptr`, capacity 0) and is
preserved by `ensureUpdateBuffer`. -/
def BufInv (s : BufState) : Prop :=
  0 < s.bufferCapacity → s.updateBuffer.isSome

/-- A sequence of `ensureUpdateBuffer` calls, each with its own allocation
oracles and requested size, folded over the buffer state. -/
def runEnsures (reqs : List (Option Nat × Option Nat × Nat)) (s : BufState) :
    BufState :=
  match reqs with
  | [] => s
  | r :: rs => runEnsures rs (ensureUpdateBuffer r.1 r.2.1 r.2.2 s).2

/-- Session statistics (lines 49-52): `frameCount`, `updatesApplied`,
`lastFrameId`. -/
structure Stats where
  frameCount : Nat
  updatesApplied : Nat
  lastFrameId : Nat
deriving Repr, DecidableEq

/-- The per-connection reset performed when a new client is accepted
(lines 168-177): the code assigns `frameCount = 0` and `updatesApplied = 0`
and does not touch `lastFrameId`. -/
def acceptReset (s : Stats) : Stats :=
  { frameCount := 0, updatesApplied := 0, lastFrameId := s.lastFrameId }

/-- Outcome of one `handleClient` frame-processing step. -/
inductive Outcome where
  | waitHeader
  | frameOk
  | dropBadMagic
  | dropVersion
  | dropCountTooLarge
  | dropAlloc
  | dropTruncatedHeader
  | dropTruncatedBody
deriving Repr, DecidableEq

/-- Whether an outcome tears the connection down (`client.stop()`). -/
def Outcome.isDrop : Outcome → Bool
  | .waitHeader => false
  | .frameOk => false
  | _ => true

/-- Result of one frame-processing step: outcome, the session statistics and
buffer state after the step, the ordered trace of pixel writes `(x, y, color)`
issued to the display, and how many times `ensureUpdateBuffer` was invoked. -/
structure FrameResult where
  outcome : Outcome
  stats : Stats
  buf : BufState
  writes : List (Nat × Nat × Nat)
  ensureCalls : Nat
deriving Repr, DecidableEq

/-- Decode `n` pixel entries of 6 bytes each (lines 238-248):
`x = e0|e1<<8`, `y = e2|e3<<8`, `color = e4|e5<<8`.  The pixel path never
writes `len`, and the pixel apply loop never reads it, so it is modelled
as 0.  Returns `none` when the stream ends mid-body. -/
def decodePixelEntries : Nat → List Byte → Option (List PixelUpdate × List Byte)
  | 0, s => some ([], s)
  | n + 1, b0 :: b1 :: b2 :: b3 :: b4 :: b5 :: s =>
    match decodePixelEntries n s with
    | none => none
    | some (us, r) => some (⟨le16 b0 b1, le16 b2 b3, 0, le16 b4 b5⟩ :: us, r)
  | _ + 1, _ => none

/-- Decode `n` run entries of 8 bytes each (lines 310-321):
`y = e0|e1<<8`, `x0 = e2|e3<<8`, `length = e4|e5<<8`, `color = e6|e7<<8`. -/
def decodeRunEntries : Nat → List Byte → Option (List PixelUpdate × List Byte)
  | 0, s => some ([], s)
  | n + 1, b0 :: b1 :: b2 :: b3 :: b4 :: b5 :: b6 :: b7 :: s =>
    match decodeRunEntries n s with
    | none => none
    | some (us, r) =>
      some (⟨le16 b2 b3, le16 b0 b1, le16 b4 b5, le16 b6 b7⟩ :: us, r)
  | _ + 1, _ => none

/-- The pixel apply loop (lines 251-258): for each entry in order, if
`x < width && y < height` then `drawPixel(x, y, color)` and
`updatesApplied++`, else skip.  Returns the ordered write trace and the
number of applied updates. -/
def applyPixelBatch (W H : Nat) : List PixelUpdate → List (Nat × Nat × Nat) × Nat
  | [] => ([], 0)
  | u :: rest =>
    let r := applyPixelBatch W H rest
    if u.x < W ∧ u.y < H then ((u.x, u.y, u.color) :: r.1, r.2 + 1)
    else r

/-- The pixels written by `fillRect(x0, y, runLen, 1, color)` (line 329):
`runLen` pixels on row `y` starting at column `x0`. -/
def rowPixels (x0 y n color : Nat) : List (Nat × Nat × Nat) :=
  (List.range n).map (fun j => (x0 + j, y, color))

/-- The run apply loop (lines 324-332): for each run in order, if
`x0 < width && y < height && runLen > 0 && x0 + runLen <= width` then fill
the row span and add `runLen` to `updatesApplied`, else skip the whole run. -/
def applyRunBatch (W H : Nat) : List PixelUpdate → List (Nat × Nat × Nat) × Nat
  | [] => ([], 0)
  | u :: rest =>
    let r := applyRunBatch W H rest
    if u.x < W ∧ u.y < H ∧ 0 < u.len ∧ u.x + u.len ≤ W then
      (rowPixels u.x u.y u.len u.color ++ r.1, r.2 + u.len)
    else r

/-- The pixel branch of `handleClient` after the version check
(lines 218-272): parse count, handle the empty frame, reject oversized
counts, grow the buffer, decode the body, then apply. -/
def pixelBody (W H : Nat) (psAlloc mAlloc : Option Nat) (frameId cnt : Nat)
    (body : List Byte) (stats : Stats) (buf : BufState) : FrameResult :=
  if cnt = 0 then
    ⟨.frameOk, ⟨stats.frameCount + 1, stats.updatesApplied, frameId⟩, buf, [], 0⟩
  else if W * H < cnt then
    ⟨.dropCountTooLarge, stats, buf, [], 0⟩
  else
    match ensureUpdateBuffer psAlloc mAlloc cnt buf with
    | (false, b2) => ⟨.dropAlloc, stats, b2, [], 1⟩
    | (true, b2) =>
      match decodePixelEntries cnt body with
      | none => ⟨.dropTruncatedBody, stats, b2, [], 1⟩
      | some (entries, _) =>
        let a := applyPixelBatch W H entries
        ⟨.frameOk, ⟨stats.frameCount + 1, stats.updatesApplied + a.2, frameId⟩,
          b2, a.1, 1⟩

/-- The run branch of `handleClient` after the version check
(lines 289-347). -/
def runBody (W H : Nat) (psAlloc mAlloc : Option Nat) (frameId cnt : Nat)
    (body : List Byte) (stats : Stats) (buf : BufState) : FrameResult :=
  if cnt = 0 then
    ⟨.frameOk, ⟨stats.frameCount + 1, stats.updatesApplied, frameId⟩, buf, [], 0⟩
  else if W * H < cnt then
    ⟨.dropCountTooLarge, stats, buf, [], 0⟩
  else
    match ensureUpdateBuffer psAlloc mAlloc cnt buf with
    | (false, b2) => ⟨.dropAlloc, stats, b2, [], 1⟩
    | (true, b2) =>
      match decodeRunEntries cnt body with
      | none => ⟨.dropTruncatedBody, stats, b2, [], 1⟩
      | some (entries, _) =>
        let a := applyRunBatch W H entries
        ⟨.frameOk, ⟨stats.frameCount + 1, stats.updatesApplied + a.2, frameId⟩,
          b2, a.1, 1⟩

/-- One frame-processing step of `handleClient` for an already-connected
client (lines 184-348).  `avail` is `client.available()`; `stream` is every
byte the transport will deliver before disconnection. -/
def handleFrame (W H : Nat) (psAlloc mAlloc : Option Nat) (avail : Nat)
    (stream : List Byte) (stats : Stats) (buf : BufState) : FrameResult :=
  if avail < 11 then
    ⟨.waitHeader, stats, buf, [], 0⟩
  else
    match stream with
    | m0 :: m1 :: m2 :: m3 :: rest =>
      if [m0, m1, m2, m3] = MAGIC then
        match rest with
        | v :: f0 :: f1 :: f2 :: f3 :: c0 :: c1 :: body =>
          if v = PROTO_VERSION then
            pixelBody W H psAlloc mAlloc (le32 f0 f1 f2 f3) (le16 c0 c1)
              body stats buf
          else ⟨.dropVersion, stats, buf, [], 0⟩
        | _ => ⟨.dropTruncatedHeader, stats, buf, [], 0⟩
      else if [m0, m1, m2, m3] = MAGIC_RUN then
        match rest with
        | v :: f0 :: f1 :: f2 :: f3 :: c0 :: c1 :: body =>
          if v = RUN_VERSION then
            runBody W H psAlloc mAlloc (le32 f0 f1 f2 f3) (le16 c0 c1)
              body stats buf
          else ⟨.dropVersion, stats, buf, [], 0⟩
        | _ => ⟨.dropTruncatedHeader, stats, buf, [], 0⟩
      else ⟨.dropBadMagic, stats, buf, [], 0⟩
    | _ => ⟨.dropTruncatedHeader, stats, buf, [], 0⟩

/-- In-bounds test of the pixel apply loop (line 254). -/
def inBoundsPixel (W H : Nat) (u : PixelUpdate) : Bool :=
  decide (u.x < W) && decide (u.y < H)

/-- The run-acceptance condition as the specification states it: `y` in
bounds, positive length, and the span ends within the surface.  (The code
additionally tests `x0 < width`, which is implied.) -/
def runOkClaim (W H : Nat) (u : PixelUpdate) : Bool :=
  decide (u.y < H) && decide (0 < u.len) && decide (u.x + u.len ≤ W)

theorem inBoundsPixel_iff (W H : Nat) (u : PixelUpdate) :
    inBoundsPixel W H u = true ↔ (u.x < W ∧ u.y < H) := by
  simp [inBoundsPixel]

theorem applyPixelBatch_spec (W H : Nat) (buf : List PixelUpdate) :
    applyPixelBatch W H buf
      = ((buf.filter (inBoundsPixel W H)).map (fun u => (u.x, u.y, u.color)),
        (buf.filter (inBoundsPixel W H)).length) := by
  induction buf with
  | nil => rfl
  | cons u rest ih =>
    by_cases hc : u.x < W ∧ u.y < H
    · simp [applyPixelBatch, ih, List.filter_cons, inBoundsPixel_iff, hc]
    · simp [applyPixelBatch, ih, List.filter_cons, inBoundsPixel_iff, hc]

theorem runOkClaim_iff (W H : Nat) (u : PixelUpdate) :
    runOkClaim W H u = true ↔ (u.y < H ∧ 0 < u.len ∧ u.x + u.len ≤ W) := by
  simp [runOkClaim, and_assoc]

theorem applyRunBatch_spec (W H : Nat) (buf : List PixelUpdate) :
    applyRunBatch W H buf
      = (((buf.filter (runOkClaim W H)).map
            (fun u => rowPixels u.x u.y u.len u.color)).flatten,
        ((buf.filter (runOkClaim W H)).map (fun u => u.len)).sum) := by
  induction buf with
  | nil => rfl
  | cons u rest ih =>
    by_cases hc : u.y < H ∧ 0 < u.len ∧ u.x + u.len ≤ W
    · have hx : u.x < W := by omega
      simp [applyRunBatch, ih, List.filter_cons, runOkClaim_iff, hc, hx,
        Nat.add_comm]
    · have hcode : ¬ (u.x < W ∧ u.y < H ∧ 0 < u.len ∧ u.x + u.len ≤ W) :=
        fun h => hc ⟨h.2.1, h.2.2⟩
      simp [applyRunBatch, ih, List.filter_cons, runOkClaim_iff, hc, hcode]

/-- C1: for every decoded pixel frame with entryCount at most width times
height, the apply phase emits exactly one surface write per in-bounds entry,
in order, and counts exactly one applied update for it; out-of-bounds entries
produce no write and no count and do not stop later entries. -/
theorem pixel_apply_inbounds_once (W H : Nat) (buf : List PixelUpdate)
    (_hcount : buf.length ≤ W * H) :
    (applyPixelBatch W H buf).1
      = (buf.filter (inBoundsPixel W H)).map (fun u => (u.x, u.y, u.color))
    ∧ (applyPixelBatch W H buf).2 = (buf.filter (inBoundsPixel W H)).length := by
  rw [applyPixelBatch_spec]
  exact ⟨rfl, rfl⟩

/-- C1 witness: a concrete batch on a 4 by 3 surface with one out-of-bounds
entry in the middle. -/
theorem pixel_apply_inbounds_once_witness :
    ([⟨1, 2, 0, 5⟩, ⟨9, 1, 0, 6⟩, ⟨0, 0, 0, 7⟩] : List PixelUpdate).length ≤ 4 * 3
    ∧ ((applyPixelBatch 4 3 [⟨1, 2, 0, 5⟩, ⟨9, 1, 0, 6⟩, ⟨0, 0, 0, 7⟩]).1
        = (([⟨1, 2, 0, 5⟩, ⟨9, 1, 0, 6⟩, ⟨0, 0, 0, 7⟩] : List PixelUpdate).filter
            (inBoundsPixel 4 3)).map (fun u => (u.x, u.y, u.color))
      ∧ (applyPixelBatch 4 3 [⟨1, 2, 0, 5⟩, ⟨9, 1, 0, 6⟩, ⟨0, 0, 0, 7⟩]).2
        = (([⟨1, 2, 0, 5⟩, ⟨9, 1, 0, 6⟩, ⟨0, 0, 0, 7⟩] : List PixelUpdate).filter
            (inBoundsPixel 4 3)).length) :=
  ⟨by decide, pixel_apply_inbounds_once 4 3 [⟨1, 2, 0, 5⟩, ⟨9, 1, 0, 6⟩, ⟨0, 0, 0, 7⟩] (by decide)⟩

/-- C2: run apply is all-or-nothing: exactly the runs satisfying `y` in
bounds, positive length and `x0 + length` within the width are filled, each
contributing precisely its `length` pixels on row `y` and `length` applied
updates; every other run contributes nothing. -/
theorem run_apply_all_or_nothing (W H : Nat) (buf : List PixelUpdate) :
    (applyRunBatch W H buf).1
      = ((buf.filter (runOkClaim W H)).map
          (fun u => rowPixels u.x u.y u.len u.color)).flatten
    ∧ (applyRunBatch W H buf).2
      = ((buf.filter (runOkClaim W H)).map (fun u => u.len)).sum
    ∧ ∀ x0 y n c, (rowPixels x0 y n c).length = n
        ∧ ∀ p ∈ rowPixels x0 y n c, p.2.1 = y := by
  refine ⟨?_, ?_, ?_⟩
  · rw [applyRunBatch_spec]
  · rw [applyRunBatch_spec]
  · intro x0 y n c
    refine ⟨by simp [rowPixels], ?_⟩
    intro p hp
    obtain ⟨j, hj, rfl⟩ := List.mem_map.1 hp
    rfl

/-- C7: when both allocators fail, `ensureUpdateBuffer` returns false and the
previous buffer pointer and capacity are untouched; more generally any failing
call leaves the state unchanged, so a failed grow never loses the prior
buffer. -/
theorem ensure_buffer_fail_preserves (psAlloc mAlloc : Option Nat)
    (needed : Nat) (s : BufState) :
    ((ensureUpdateBuffer psAlloc mAlloc needed s).1 = false →
      (ensureUpdateBuffer psAlloc mAlloc needed s).2 = s)
    ∧ (¬ (needed ≤ s.bufferCapacity ∧ s.updateBuffer.isSome = true) →
        ensureUpdateBuffer none none needed s = (false, s)) := by
  constructor
  · unfold ensureUpdateBuffer
    split
    · simp
    · cases psAlloc <;> cases mAlloc <;> simp
  · intro hn
    unfold ensureUpdateBuffer
    split
    · exact absurd (by assumption) hn
    · rfl

/-- C7 witness: a failed first allocation (needed 5, empty buffer, both
allocators failing) returns false with the state unchanged. -/
theorem ensure_buffer_fail_preserves_witness :
    ¬ ((5 : Nat) ≤ (⟨none, 0⟩ : BufState).bufferCapacity
        ∧ (⟨none, 0⟩ : BufState).updateBuffer.isSome = true)
    ∧ ensureUpdateBuffer none none 5 ⟨none, 0⟩ = (false, ⟨none, 0⟩) :=
  ⟨by decide, (ensure_buffer_fail_preserves none none 5 ⟨none, 0⟩).2 (by decide)⟩

theorem ensure_step_mono (psAlloc mAlloc : Option Nat) (n : Nat) (s : BufState)
    (hinv : BufInv s) :
    s.bufferCapacity ≤ (ensureUpdateBuffer psAlloc mAlloc n s).2.bufferCapacity
    ∧ BufInv (ensureUpdateBuffer psAlloc mAlloc n s).2 := by
  unfold ensureUpdateBuffer
  split
  · exact ⟨le_refl _, hinv⟩
  · rename_i hcond
    have hle : s.bufferCapacity ≤ n := by
      by_cases hc : 0 < s.bufferCapacity
      · have hs := hinv hc
        by_contra hlt
        exact hcond ⟨by omega, hs⟩
      · omega
    cases psAlloc with
    | some p => exact ⟨hle, fun _ => rfl⟩
    | none =>
      cases mAlloc with
      | some p => exact ⟨hle, fun _ => rfl⟩
      | none => exact ⟨le_refl _, hinv⟩

theorem runEnsures_mono (reqs : List (Option Nat × Option Nat × Nat))
    (s : BufState) (hinv : BufInv s) :
    s.bufferCapacity ≤ (runEnsures reqs s).bufferCapacity
    ∧ BufInv (runEnsures reqs s) := by
  induction reqs generalizing s with
  | nil => exact ⟨le_refl _, hinv⟩
  | cons r rs ih =>
    have h1 := ensure_step_mono r.1 r.2.1 r.2.2 s hinv
    have h2 := ih _ h1.2
    exact ⟨le_trans h1.1 h2.1, h2.2⟩

/-- C8: along any sequence of `ensureUpdateBuffer` calls from a state
satisfying the reachable-state invariant, the capacity never decreases; a call
asking for at most the current capacity (for a nonzero request, as the decoder
always makes) is a successful no-op, and a successful grow sets the capacity
to exactly the requested size. -/
theorem buffer_capacity_monotone (reqs : List (Option Nat × Option Nat × Nat))
    (psAlloc mAlloc : Option Nat) (n : Nat) (s : BufState) (hinv : BufInv s) :
    s.bufferCapacity ≤ (runEnsures reqs s).bufferCapacity
    ∧ (1 ≤ n → n ≤ s.bufferCapacity →
        ensureUpdateBuffer psAlloc mAlloc n s = (true, s))
    ∧ ((ensureUpdateBuffer psAlloc mAlloc n s).1 = true →
        s.bufferCapacity < n →
        (ensureUpdateBuffer psAlloc mAlloc n s).2.bufferCapacity = n) := by
  refine ⟨(runEnsures_mono reqs s hinv).1, ?_, ?_⟩
  · intro h1 hle
    have hs : s.updateBuffer.isSome = true := hinv (by omega)
    unfold ensureUpdateBuffer
    rw [if_pos ⟨hle, hs⟩]
  · intro htrue hlt
    unfold ensureUpdateBuffer at htrue ⊢
    split at htrue
    · rename_i hcond
      exact absurd hcond.1 (by omega)
    · rename_i hcond
      rw [if_neg hcond]
      cases psAlloc with
      | some p => rfl
      | none =>
        cases mAlloc with
        | some p => rfl
        | none => simp at htrue

/-- C8 witness: a no-op call (3 of 4), a grow trace, and the invariant, all at
concrete values. -/
theorem buffer_capacity_monotone_witness :
    BufInv ⟨some 0, 4⟩
    ∧ (⟨some 0, 4⟩ : BufState).bufferCapacity
        ≤ (runEnsures [(some 1, none, 9), (none, none, 2)] ⟨some 0, 4⟩).bufferCapacity
    ∧ ensureUpdateBuffer (some 1) none 3 ⟨some 0, 4⟩ = (true, ⟨some 0, 4⟩) :=
  ⟨fun _ => rfl,
   (buffer_capacity_monotone [(some 1, none, 9), (none, none, 2)]
      (some 1) none 3 ⟨some 0, 4⟩ (fun _ => rfl)).1,
   (buffer_capacity_monotone [(some 1, none, 9), (none, none, 2)]
      (some 1) none 3 ⟨some 0, 4⟩ (fun _ => rfl)).2.1 (by decide) (by decide)⟩

/-- C6 counterexample: accepting a new client resets `frameCount` and
`updatesApplied` but leaves `lastFrameId` at its previous value (here 7, not
0), so not all three statistics are reset to zero. -/
theorem accept_keeps_lastFrameId :
    (acceptReset ⟨3, 5, 7⟩).frameCount = 0
    ∧ (acceptReset ⟨3, 5, 7⟩).updatesApplied = 0
    ∧ (acceptReset ⟨3, 5, 7⟩).lastFrameId = 7
    ∧ ¬ (acceptReset ⟨3, 5, 7⟩).lastFrameId = 0 := by
  decide

/-- C6 amended: on every newly accepted connection, `frameCount` and
`updatesApplied` are reset to zero before any frame is processed, while
`lastFrameId` keeps the value it had before the accept. -/
theorem accept_resets_counters (s : Stats) :
    acceptReset s = ⟨0, 0, s.lastFrameId⟩ := rfl

theorem pixelBody_cases (W H : Nat) (psAlloc mAlloc : Option Nat)
    (fid cnt : Nat) (body : List Byte) (stats : Stats) (buf : BufState) :
    (pixelBody W H psAlloc mAlloc fid cnt body stats buf).outcome = Outcome.frameOk
    ∨ ((pixelBody W H psAlloc mAlloc fid cnt body stats buf).writes = []
      ∧ (pixelBody W H psAlloc mAlloc fid cnt body stats buf).stats = stats) := by
  unfold pixelBody
  repeat' split
  all_goals first
    | exact Or.inl rfl
    | exact Or.inr ⟨rfl, rfl⟩

theorem runBody_cases (W H : Nat) (psAlloc mAlloc : Option Nat)
    (fid cnt : Nat) (body : List Byte) (stats : Stats) (buf : BufState) :
    (runBody W H psAlloc mAlloc fid cnt body stats buf).outcome = Outcome.frameOk
    ∨ ((runBody W H psAlloc mAlloc fid cnt body stats buf).writes = []
      ∧ (runBody W H psAlloc mAlloc fid cnt body stats buf).stats = stats) := by
  unfold runBody
  repeat' split
  all_goals first
    | exact Or.inl rfl
    | exact Or.inr ⟨rfl, rfl⟩

theorem handleFrame_cases (W H : Nat) (psAlloc mAlloc : Option Nat)
    (avail : Nat) (stream : List Byte) (stats : Stats) (buf : BufState) :
    (handleFrame W H psAlloc mAlloc avail stream stats buf).outcome = Outcome.frameOk
    ∨ ((handleFrame W H psAlloc mAlloc avail stream stats buf).writes = []
      ∧ (handleFrame W H psAlloc mAlloc avail stream stats buf).stats = stats) := by
  unfold handleFrame
  repeat' split
  all_goals first
    | exact Or.inr ⟨rfl, rfl⟩
    | apply pixelBody_cases
    | apply runBody_cases

/-- C3: whenever a frame read is truncated (stream ends mid-header or
mid-body), the step issues no surface write and leaves the session statistics
exactly as they were before the frame, and the connection is torn down; the
body is fully decoded before any compositing write begins. -/
theorem truncated_frame_no_effect (W H : Nat) (psAlloc mAlloc : Option Nat)
    (avail : Nat) (stream : List Byte) (stats : Stats) (buf : BufState)
    (h : (handleFrame W H psAlloc mAlloc avail stream stats buf).outcome
          = Outcome.dropTruncatedHeader
      ∨ (handleFrame W H psAlloc mAlloc avail stream stats buf).outcome
          = Outcome.dropTruncatedBody) :
    (handleFrame W H psAlloc mAlloc avail stream stats buf).writes = []
    ∧ (handleFrame W H psAlloc mAlloc avail stream stats buf).stats = stats
    ∧ (handleFrame W H psAlloc mAlloc avail stream stats buf).outcome.isDrop
        = true := by
  rcases handleFrame_cases W H psAlloc mAlloc avail stream stats buf with
    hok | ⟨hw, hs⟩
  · rcases h with h | h <;> rw [hok] at h <;> exact absurd h (by decide)
  · refine ⟨hw, hs, ?_⟩
    rcases h with h | h <;> rw [h] <;> rfl

/-- C3 witness: a pixel frame advertising one entry whose body never arrives:
truncated mid-body, no writes, statistics untouched, connection dropped. -/
theorem truncated_frame_no_effect_witness :
    ((handleFrame 280 240 (some 0) none 11
        ((80 : Byte) :: 88 :: 85 :: 80 :: 2 :: 9 :: 0 :: 0 :: 0 :: 1 :: 0 :: [])
        ⟨1, 2, 3⟩ ⟨none, 0⟩).outcome = Outcome.dropTruncatedHeader
      ∨ (handleFrame 280 240 (some 0) none 11
        ((80 : Byte) :: 88 :: 85 :: 80 :: 2 :: 9 :: 0 :: 0 :: 0 :: 1 :: 0 :: [])
        ⟨1, 2, 3⟩ ⟨none, 0⟩).outcome = Outcome.dropTruncatedBody)
    ∧ ((handleFrame 280 240 (some 0) none 11
        ((80 : Byte) :: 88 :: 85 :: 80 :: 2 :: 9 :: 0 :: 0 :: 0 :: 1 :: 0 :: [])
        ⟨1, 2, 3⟩ ⟨none, 0⟩).writes = []
      ∧ (handleFrame 280 240 (some 0) none 11
        ((80 : Byte) :: 88 :: 85 :: 80 :: 2 :: 9 :: 0 :: 0 :: 0 :: 1 :: 0 :: [])
        ⟨1, 2, 3⟩ ⟨none, 0⟩).stats = ⟨1, 2, 3⟩
      ∧ (handleFrame 280 240 (some 0) none 11
        ((80 : Byte) :: 88 :: 85 :: 80 :: 2 :: 9 :: 0 :: 0 :: 0 :: 1 :: 0 :: [])
        ⟨1, 2, 3⟩ ⟨none, 0⟩).outcome.isDrop = true) :=
  ⟨Or.inr (by decide),
   truncated_frame_no_effect 280 240 (some 0) none 11
     ((80 : Byte) :: 88 :: 85 :: 80 :: 2 :: 9 :: 0 :: 0 :: 0 :: 1 :: 0 :: [])
     ⟨1, 2, 3⟩ ⟨none, 0⟩ (Or.inr (by decide))⟩

/-- C4: a parsed entryCount strictly greater than width times height is fatal
for both packet kinds - the step reports CountTooLarge, makes no surface
write, and leaves all statistics (frameCount, updatesApplied, lastFrameId)
unchanged. -/
theorem count_too_large_fatal (W H : Nat) (psAlloc mAlloc : Option Nat)
    (avail : Nat) (k : Bool) (f0 f1 f2 f3 c0 c1 : Byte) (rest : List Byte)
    (stats : Stats) (buf : BufState)
    (ha : 11 ≤ avail) (hc : W * H < le16 c0 c1) :
    handleFrame W H psAlloc mAlloc avail
        ((if k then MAGIC_RUN else MAGIC)
          ++ (if k then RUN_VERSION else PROTO_VERSION)
            :: f0 :: f1 :: f2 :: f3 :: c0 :: c1 :: rest)
        stats buf
      = ⟨Outcome.dropCountTooLarge, stats, buf, [], 0⟩ := by
  have hna : ¬ avail < 11 := by omega
  have h0 : ¬ le16 c0 c1 = 0 := by omega
  cases k <;>
    simp [handleFrame, pixelBody, runBody, MAGIC, MAGIC_RUN, PROTO_VERSION,
      RUN_VERSION, hna, h0, hc]

/-- C4 witness: a run frame with count 200 on a 10 by 10 surface is rejected
as CountTooLarge with nothing changed. -/
theorem count_too_large_fatal_witness :
    (11 : Nat) ≤ 11 ∧ 10 * 10 < le16 200 0
    ∧ handleFrame 10 10 none none 11
        ((if true then MAGIC_RUN else MAGIC)
          ++ (if true then RUN_VERSION else PROTO_VERSION)
            :: (0 : Byte) :: 0 :: 0 :: 0 :: 200 :: 0 :: [])
        ⟨1, 2, 3⟩ ⟨none, 0⟩
      = ⟨Outcome.dropCountTooLarge, ⟨1, 2, 3⟩, ⟨none, 0⟩, [], 0⟩ :=
  ⟨by decide, by decide,
   count_too_large_fatal 10 10 none none 11 true 0 0 0 0 200 0 []
     ⟨1, 2, 3⟩ ⟨none, 0⟩ (by decide) (by decide)⟩

/-- C9: a frame of either kind with entryCount 0 is a valid empty frame: the
connection stays open, no surface write happens, `ensureUpdateBuffer` is never
invoked, `frameCount` is incremented, `updatesApplied` is unchanged, and
`lastFrameId` becomes the frame's id. -/
theorem empty_frame_noop (W H : Nat) (psAlloc mAlloc : Option Nat)
    (avail : Nat) (k : Bool) (f0 f1 f2 f3 : Byte) (rest : List Byte)
    (stats : Stats) (buf : BufState) (ha : 11 ≤ avail) :
    handleFrame W H psAlloc mAlloc avail
        ((if k then MAGIC_RUN else MAGIC)
          ++ (if k then RUN_VERSION else PROTO_VERSION)
            :: f0 :: f1 :: f2 :: f3 :: 0 :: 0 :: rest)
        stats buf
      = ⟨Outcome.frameOk,
          ⟨stats.frameCount + 1, stats.updatesApplied, le32 f0 f1 f2 f3⟩,
          buf, [], 0⟩ := by
  have hna : ¬ avail < 11 := by omega
  have hz : le16 0 0 = 0 := by decide
  cases k <;>
    simp [handleFrame, pixelBody, runBody, MAGIC, MAGIC_RUN, PROTO_VERSION,
      RUN_VERSION, hna, hz]

/-- C9 witness: an empty pixel frame with frameId 9 on a 280 by 240 surface,
with both allocators failing (they are never consulted). -/
theorem empty_frame_noop_witness :
    (11 : Nat) ≤ 11
    ∧ handleFrame 280 240 none none 11
        ((if false then MAGIC_RUN else MAGIC)
          ++ (if false then RUN_VERSION else PROTO_VERSION)
            :: (9 : Byte) :: 0 :: 0 :: 0 :: 0 :: 0 :: [])
        ⟨4, 6, 2⟩ ⟨some 3, 8⟩
      = ⟨Outcome.frameOk, ⟨5, 6, le32 9 0 0 0⟩, ⟨some 3, 8⟩, [], 0⟩ :=
  ⟨by decide,
   empty_frame_noop 280 240 none none 11 false 9 0 0 0 [] ⟨4, 6, 2⟩ ⟨some 3, 8⟩
     (by decide)⟩

theorem le16_lt (a b : Byte) : le16 a b < 65536 := by
  have ha := a.isLt
  have hb := b.isLt
  unfold le16
  omega

theorem pixelBody_no_largecount (W H : Nat) (psAlloc mAlloc : Option Nat)
    (fid cnt : Nat) (body : List Byte) (stats : Stats) (buf : BufState)
    (hcnt : cnt < 65536) (h : 65536 ≤ W * H) :
    ¬ (pixelBody W H psAlloc mAlloc fid cnt body stats buf).outcome
        = Outcome.dropCountTooLarge := by
  have hlt : ¬ W * H < cnt := by omega
  unfold pixelBody
  repeat' split
  all_goals simp_all

theorem runBody_no_largecount (W H : Nat) (psAlloc mAlloc : Option Nat)
    (fid cnt : Nat) (body : List Byte) (stats : Stats) (buf : BufState)
    (hcnt : cnt < 65536) (h : 65536 ≤ W * H) :
    ¬ (runBody W H psAlloc mAlloc fid cnt body stats buf).outcome
        = Outcome.dropCountTooLarge := by
  have hlt : ¬ W * H < cnt := by omega
  unfold runBody
  repeat' split
  all_goals simp_all

theorem pixelBody_ensureCalls (W H : Nat) (psAlloc mAlloc : Option Nat)
    (fid cnt : Nat) (body : List Byte) (stats : Stats) (buf : BufState)
    (h0 : ¬ cnt = 0) (h1 : ¬ W * H < cnt) :
    (pixelBody W H psAlloc mAlloc fid cnt body stats buf).ensureCalls = 1 := by
  unfold pixelBody
  rw [if_neg h0, if_neg h1]
  repeat' split
  all_goals rfl

theorem runBody_ensureCalls (W H : Nat) (psAlloc mAlloc : Option Nat)
    (fid cnt : Nat) (body : List Byte) (stats : Stats) (buf : BufState)
    (h0 : ¬ cnt = 0) (h1 : ¬ W * H < cnt) :
    (runBody W H psAlloc mAlloc fid cnt body stats buf).ensureCalls = 1 := by
  unfold runBody
  rw [if_neg h0, if_neg h1]
  repeat' split
  all_goals rfl

/-- C5 counterexample: a pixel frame with entryCount 50000 on a 280 by 240
surface (50000 is not greater than 67200) is NOT rejected as CountTooLarge:
with both allocators failing it reaches buffer allocation and drops for that
reason instead. -/
theorem scenarioE_count50000_not_rejected :
    (handleFrame 280 240 none none 11
        ((80 : Byte) :: 88 :: 85 :: 80 :: 2 :: 0 :: 0 :: 0 :: 0 :: 80 :: 195 :: [])
        ⟨0, 0, 0⟩ ⟨none, 0⟩).outcome = Outcome.dropAlloc
    ∧ ¬ (handleFrame 280 240 none none 11
        ((80 : Byte) :: 88 :: 85 :: 80 :: 2 :: 0 :: 0 :: 0 :: 0 :: 80 :: 195 :: [])
        ⟨0, 0, 0⟩ ⟨none, 0⟩).outcome = Outcome.dropCountTooLarge := by
  decide

/-- C5 amended: a pixel frame with entryCount 50000 on a 280 by 240 surface
passes the count check (50000 is at most 67200) and always proceeds to buffer
allocation and body decoding; it is never rejected as CountTooLarge. -/
theorem count50000_passes_check (psAlloc mAlloc : Option Nat)
    (rest : List Byte) (stats : Stats) (buf : BufState) :
    (handleFrame 280 240 psAlloc mAlloc 11
        ((80 : Byte) :: 88 :: 85 :: 80 :: 2 :: 0 :: 0 :: 0 :: 0 :: 80 :: 195 :: rest)
        stats buf).ensureCalls = 1
    ∧ ¬ (handleFrame 280 240 psAlloc mAlloc 11
        ((80 : Byte) :: 88 :: 85 :: 80 :: 2 :: 0 :: 0 :: 0 :: 0 :: 80 :: 195 :: rest)
        stats buf).outcome = Outcome.dropCountTooLarge := by
  have e1 := pixelBody_ensureCalls 280 240 psAlloc mAlloc (le32 0 0 0 0)
    (le16 80 195) rest stats buf (by decide) (by decide)
  have e2 := pixelBody_no_largecount 280 240 psAlloc mAlloc (le32 0 0 0 0)
    (le16 80 195) rest stats buf (le16_lt 80 195) (by norm_num)
  constructor
  · simpa [handleFrame, MAGIC, PROTO_VERSION] using e1
  · simpa [handleFrame, MAGIC, PROTO_VERSION] using e2

/-- C10 counterexample: a magic/version-valid pixel frame with entryCount 0 on
the 280 by 240 surface does not proceed to buffer allocation or body
decoding: `ensureUpdateBuffer` is never invoked (with both allocators failing
the frame still succeeds as an empty frame). -/
theorem zero_count_skips_alloc :
    (handleFrame 280 240 none none 11
        ((80 : Byte) :: 88 :: 85 :: 80 :: 2 :: 0 :: 0 :: 0 :: 0 :: 0 :: 0 :: [])
        ⟨0, 0, 0⟩ ⟨none, 0⟩).ensureCalls = 0
    ∧ (handleFrame 280 240 none none 11
        ((80 : Byte) :: 88 :: 85 :: 80 :: 2 :: 0 :: 0 :: 0 :: 0 :: 0 :: 0 :: [])
        ⟨0, 0, 0⟩ ⟨none, 0⟩).outcome = Outcome.frameOk := by
  decide

/-- C10 amended: on every surface with width times height at least 65536, the
CountTooLarge branch is unreachable (a 2-byte little-endian entryCount is at
most 65535), and every magic/version-valid frame with nonzero entryCount
proceeds to buffer allocation and body decoding. -/
theorem count_check_unreachable (W H : Nat) (psAlloc mAlloc : Option Nat)
    (avail : Nat) (h : 65536 ≤ W * H) :
    (∀ (stream : List Byte) (stats : Stats) (buf : BufState),
      ¬ (handleFrame W H psAlloc mAlloc avail stream stats buf).outcome
          = Outcome.dropCountTooLarge)
    ∧ (∀ (k : Bool) (f0 f1 f2 f3 c0 c1 : Byte) (rest : List Byte)
        (stats : Stats) (buf : BufState), 11 ≤ avail → ¬ le16 c0 c1 = 0 →
        (handleFrame W H psAlloc mAlloc avail
            ((if k then MAGIC_RUN else MAGIC)
              ++ (if k then RUN_VERSION else PROTO_VERSION)
                :: f0 :: f1 :: f2 :: f3 :: c0 :: c1 :: rest)
            stats buf).ensureCalls = 1) := by
  constructor
  · intro stream stats buf
    unfold handleFrame
    repeat' split
    all_goals first
      | simp
      | exact pixelBody_no_largecount _ _ _ _ _ _ _ _ _ (le16_lt _ _) h
      | exact runBody_no_largecount _ _ _ _ _ _ _ _ _ (le16_lt _ _) h
  · intro k f0 f1 f2 f3 c0 c1 rest stats buf ha hcnt
    have hna : ¬ avail < 11 := by omega
    have hlt : ¬ W * H < le16 c0 c1 := by
      have := le16_lt c0 c1
      omega
    cases k
    · have e := pixelBody_ensureCalls W H psAlloc mAlloc (le32 f0 f1 f2 f3)
        (le16 c0 c1) rest stats buf hcnt hlt
      simpa [handleFrame, MAGIC, PROTO_VERSION, hna] using e
    · have e := runBody_ensureCalls W H psAlloc mAlloc (le32 f0 f1 f2 f3)
        (le16 c0 c1) rest stats buf hcnt hlt
      simpa [handleFrame, MAGIC, MAGIC_RUN, RUN_VERSION, hna] using e

/-- C10 witness: on the 280 by 240 surface (67200 at least 65536), a count
50000 pixel frame is not CountTooLarge, and a count 1 run frame reaches
buffer allocation. -/
theorem count_check_unreachable_witness :
    (65536 : Nat) ≤ 280 * 240
    ∧ ¬ (handleFrame 280 240 none none 11
        ((80 : Byte) :: 88 :: 85 :: 80 :: 2 :: 0 :: 0 :: 0 :: 0 :: 80 :: 195 :: [])
        ⟨0, 0, 0⟩ ⟨none, 0⟩).outcome = Outcome.dropCountTooLarge
    ∧ (handleFrame 280 240 none none 11
        ((if true then MAGIC_RUN else MAGIC)
          ++ (if true then RUN_VERSION else PROTO_VERSION)
            :: (0 : Byte) :: 0 :: 0 :: 0 :: 1 :: 0 :: [])
        ⟨0, 0, 0⟩ ⟨none, 0⟩).ensureCalls = 1 :=
  ⟨by norm_num,
   (count_check_unreachable 280 240 none none 11 (by norm_num)).1
     ((80 : Byte) :: 88 :: 85 :: 80 :: 2 :: 0 :: 0 :: 0 :: 0 :: 80 :: 195 :: [])
     ⟨0, 0, 0⟩ ⟨none, 0⟩,
   (count_check_unreachable 280 240 none none 11 (by norm_num)).2 true 0 0 0 0 1 0 []
     ⟨0, 0, 0⟩ ⟨none, 0⟩ (by decide) (by decide)⟩
